import Mathlib

/-!
Shallow embedding of the measurement plugins of the `tao` repository
(`examples/llama_power/RunnerConfig.py`, `examples/powerjoular_test/RunnerConfig.py`,
`examples/powerjoular_test/pressure.py`).

Python floats are modelled as exact rationals (`ℚ`), the integer microjoule
counters as `ℤ`, a `FileNotFoundError` on a counter read as `none`, and the
pandas `NaN` value as `none` in `Option ℚ`.
-/

namespace Tao

/-- the Python `round(x, n)` rounds half to even.  `roundHalfEven x` is the
nearest integer to `x`, ties going to the even integer. -/
def roundHalfEven (x : ℚ) : ℤ :=
  if x - x.floor < 1/2 then x.floor
  else if 1/2 < x - x.floor then x.floor + 1
  else if x.floor % 2 = 0 then x.floor else x.floor + 1

/-- the Python `round(x, 3)`: round to 3 decimal places, half to even. -/
def round3 (x : ℚ) : ℚ := (roundHalfEven (x * 1000) : ℚ) / 1000

/-- `Rat.floor` agrees with the `Int.floor` of the Mathlib order theory. -/
theorem ratFloor_eq_intFloor (q : ℚ) : q.floor = ⌊q⌋ := by
  rw [Rat.floor_def', Rat.floor_def]

theorem roundHalfEven_intCast (n : ℤ) : roundHalfEven (n : ℚ) = n := by
  unfold roundHalfEven
  rw [ratFloor_eq_intFloor, Int.floor_intCast]
  norm_num

/-- Evaluation rule for `round3` at arguments that are exact multiples of
`1/1000` (every value the plugins round is one). -/
theorem round3_eq (x : ℚ) (n : ℤ) (h : x * 1000 = (n : ℚ)) :
    round3 x = (n : ℚ) / 1000 := by
  unfold round3
  rw [h, roundHalfEven_intCast]

theorem round3_zero : round3 0 = 0 := by
  rw [round3_eq 0 0 (by norm_num)]
  norm_num

theorem roundHalfEven_nonpos {x : ℚ} (hx : x ≤ 0) : roundHalfEven x ≤ 0 := by
  unfold roundHalfEven
  have hf : (⌊x⌋ : ℚ) ≤ x := Int.floor_le x
  have hf0 : ⌊x⌋ ≤ 0 := by
    have : (⌊x⌋ : ℚ) ≤ 0 := le_trans hf hx
    exact_mod_cast this
  rw [ratFloor_eq_intFloor]
  split
  · exact hf0
  · rename_i hlt
    push_neg at hlt
    have : (⌊x⌋ : ℚ) ≤ -(1/2) := by linarith
    have hneg : ⌊x⌋ < 0 := by
      have : (⌊x⌋ : ℚ) < 0 := lt_of_le_of_lt this (by norm_num)
      exact_mod_cast this
    split
    · omega
    · split <;> omega

theorem round3_nonpos {x : ℚ} (hx : x ≤ 0) : round3 x ≤ 0 := by
  unfold round3
  have h : roundHalfEven (x * 1000) ≤ 0 :=
    roundHalfEven_nonpos (by nlinarith)
  have h2 : ((roundHalfEven (x * 1000) : ℤ) : ℚ) ≤ 0 := by exact_mod_cast h
  have : (0 : ℚ) < 1000 := by norm_num
  exact div_nonpos_of_nonpos_of_nonneg h2 (by norm_num)

/-!
## Energy Counter Reader — `RunnerConfig.get_cpu_power` / `get_memory_power`
(`examples/llama_power/RunnerConfig.py`, lines 96-132)

Each reader opens `/sys/class/powercap/intel-rapl:{0,1}/energy_uj` twice,
one second apart, and returns `(energy_end - energy_start) / 1e6`.  A
`FileNotFoundError` (either open) is modelled by `reads = none`; on it the
reader returns `0.0` and, when the *shared* instance flag
`self.rapl_error_printed` is still `False`, prints one warning and sets the
flag.  The result bundles the returned value, the updated flag, and the
number of warning lines printed by the call.
-/

structure ReaderResult where
  value : ℚ
  flag : Bool
  warnings : ℕ
deriving DecidableEq

/-- `RunnerConfig.get_cpu_power` reading `intel-rapl:0/energy_uj`. -/
def get_cpu_power (reads : Option (ℤ × ℤ)) (rapl_error_printed : Bool) : ReaderResult :=
  match reads with
  | some (energy_start, energy_end) =>
      { value := ((energy_end - energy_start : ℤ) : ℚ) / 1000000
        flag := rapl_error_printed
        warnings := 0 }
  | none =>
      { value := 0
        flag := true
        warnings := if rapl_error_printed then 0 else 1 }

/-- `RunnerConfig.get_memory_power` reading `intel-rapl:1/energy_uj`; the body
differs from `get_cpu_power` only in the file path and warning text. -/
def get_memory_power (reads : Option (ℤ × ℤ)) (rapl_error_printed : Bool) : ReaderResult :=
  match reads with
  | some (energy_start, energy_end) =>
      { value := ((energy_end - energy_start : ℤ) : ℚ) / 1000000
        flag := rapl_error_printed
        warnings := 0 }
  | none =>
      { value := 0
        flag := true
        warnings := if rapl_error_printed then 0 else 1 }

inductive RaplDomain
  | cpu
  | mem
deriving DecidableEq

/-- Run a sequence of reader calls while both interface files are absent
(the `FileNotFoundError` branch every time), threading the shared
`rapl_error_printed` flag through the calls, and count the warning lines
printed in total. -/
def runUnavailableCalls : List RaplDomain → Bool → ℕ
  | [], _ => 0
  | RaplDomain.cpu :: rest, flag =>
      let r := get_cpu_power none flag
      r.warnings + runUnavailableCalls rest r.flag
  | RaplDomain.mem :: rest, flag =>
      let r := get_memory_power none flag
      r.warnings + runUnavailableCalls rest r.flag

theorem runUnavailableCalls_flag_set (calls : List RaplDomain) :
    runUnavailableCalls calls true = 0 := by
  induction calls with
  | nil => rfl
  | cons d rest ih => cases d <;> simp [runUnavailableCalls, get_cpu_power, get_memory_power, ih]

/-!
## Sampling Loop / Aggregator — `RunnerConfig.monitor_cpu_memory`
(`examples/llama_power/RunnerConfig.py`, lines 134-209)

The four RAPL counter reads are modelled as `Option ℤ` (`none` =
`FileNotFoundError`); the polling loop collected sample series are inputs.
Each `try` block opens `intel-rapl:0` then `intel-rapl:1`, so a failure of
either read aborts the whole block: the initial block then sets *both*
initial energies to `0.0`, the final block sets *both* final energies back
to the initial ones.
-/

structure MonitorInputs where
  cpu0 : Option ℤ
  mem0 : Option ℤ
  cpu1 : Option ℤ
  mem1 : Option ℤ
  cpu_usage : List ℚ
  memory_usage : List ℚ
  cpu_power_usage : List ℚ
  mem_power_usage : List ℚ

/-- The first `try` block (lines 143-153): on any `FileNotFoundError` both
initial energies become `0.0`. -/
def initialEnergies (inp : MonitorInputs) : ℚ × ℚ :=
  match inp.cpu0, inp.mem0 with
  | some a, some b => ((a : ℚ), (b : ℚ))
  | _, _ => (0, 0)

/-- The second `try` block (lines 169-179): on any `FileNotFoundError` both
final energies are forced back to the initial ones. -/
def finalEnergies (inp : MonitorInputs) : ℚ × ℚ :=
  match inp.cpu1, inp.mem1 with
  | some a, some b => ((a : ℚ), (b : ℚ))
  | _, _ => initialEnergies inp

/-- `round(sum(l) / len(l), 3) if l else 0` (lines 189-200; the `else`
value is the integer `0` for the utilization series and the float `0.0`
for the power series — both are `0` in `ℚ`). -/
def avgOrZero (l : List ℚ) : ℚ :=
  if l = [] then 0 else round3 (l.sum / l.length)

/-- `RunnerConfig.monitor_cpu_memory`: returns
`(avg_cpu, avg_mem, avg_cpu_power, avg_mem_power, cpu_energy_usage,
mem_energy_usage)`.  The two energy metrics are counter deltas divided by
`1e6` and rounded to 3 decimals (lines 181-187); they are not derived from
the power sample series. -/
def monitor_cpu_memory (inp : MonitorInputs) : ℚ × ℚ × ℚ × ℚ × ℚ × ℚ :=
  ( avgOrZero inp.cpu_usage
  , avgOrZero inp.memory_usage
  , avgOrZero inp.cpu_power_usage
  , avgOrZero inp.mem_power_usage
  , round3 (((finalEnergies inp).1 - (initialEnergies inp).1) / 1000000)
  , round3 (((finalEnergies inp).2 - (initialEnergies inp).2) / 1000000) )

/-- The `cpu_energy_usage` component of `monitor_cpu_memory`. -/
def cpu_energy_usage (inp : MonitorInputs) : ℚ :=
  (monitor_cpu_memory inp).2.2.2.2.1

/-- The `mem_energy_usage` component of `monitor_cpu_memory`. -/
def mem_energy_usage (inp : MonitorInputs) : ℚ :=
  (monitor_cpu_memory inp).2.2.2.2.2

/-!
## GPU Telemetry Reader — `RunnerConfig.monitor_gpu`
(`examples/llama_power/RunnerConfig.py`, lines 211-252)

Each loop iteration invokes `nvidia-smi` once; an invocation either yields
the parsed `(power_draw, utilization)` pairs of its CSV lines (`some`) or
raises `FileNotFoundError` / `CalledProcessError` (`none`), upon which the
function prints a message and returns `(0.0, 0.0, 0.0)` at once, discarding
any samples already collected.  `polls` is the sequence of invocations the
loop performs.
-/

def gpuCollect : List (Option (List (ℚ × ℚ))) → List ℚ × List ℚ → Option (List ℚ × List ℚ)
  | [], acc => some acc
  | none :: _, _ => none
  | some lines :: rest, acc =>
      gpuCollect rest (acc.1 ++ lines.map Prod.fst, acc.2 ++ lines.map Prod.snd)

/-- `round(sum(l) / len(l) if l else 0, 3)` (lines 245-250). -/
def roundedAvgOrZero (l : List ℚ) : ℚ :=
  round3 (if l = [] then 0 else l.sum / l.length)

/-- `RunnerConfig.monitor_gpu`: returns
`(avg_gpu_power, avg_gpu_utilization, gpu_energy_usage)`; the energy metric
is `round(sum(gpu_power_usage) / 1e3, 3)` (line 244), derived from the power
sample series, not from a hardware counter. -/
def monitor_gpu (polls : List (Option (List (ℚ × ℚ)))) : ℚ × ℚ × ℚ :=
  match gpuCollect polls ([], []) with
  | none => (0, 0, 0)
  | some (gpu_power_usage, gpu_utilization) =>
      ( roundedAvgOrZero gpu_power_usage
      , roundedAvgOrZero gpu_utilization
      , round3 (gpu_power_usage.sum / 1000) )

/-- The power samples a fault-free sequence of `nvidia-smi` invocations
contributes, in order: one `power_draw` per CSV line per poll. -/
def gpuPowerSamples (polls : List (Option (List (ℚ × ℚ)))) : List ℚ :=
  (polls.map (fun o => (o.getD []).map Prod.fst)).flatten

/-- The utilization samples, one `utilization` per CSV line per poll. -/
def gpuUtilSamples (polls : List (Option (List (ℚ × ℚ)))) : List ℚ :=
  (polls.map (fun o => (o.getD []).map Prod.snd)).flatten

/-!
## Sampling loop control
(`examples/llama_power/RunnerConfig.py` lines 155-166 and 215-241;
`examples/powerjoular_test/RunnerConfig.py` lines 121-137)

Time is modelled by `ℚ` seconds since the loop `start_time`.  The
workload process exits at `exitTime`, so `self.process.poll() is None`
holds at time `t` iff `t < exitTime`.  `durs` lists the (positive) wall
clock durations of the successive loop bodies — the loop cadence is the
sum of its blocking sampling calls.
-/

/-- The check times at which the loop head re-evaluates its condition:
the start time and the time after each completed body. -/
def checkTimes : ℚ → List ℚ → List ℚ
  | t, [] => [t]
  | t, d :: rest => t :: checkTimes (t + d) rest

/-- `while self.process.poll() is None and (time.time() - start_time) < 10`
(lines 156 and 216): the time at which the loop exits. -/
def monitorLoopEnd (exitTime : ℚ) : ℚ → List ℚ → ℚ
  | t, [] => t
  | t, d :: rest =>
      if t < exitTime ∧ t < 10 then monitorLoopEnd exitTime (t + d) rest else t

/-- `RunnerConfig.interact` of the powerjoular variant (lines 121-137):
`while self.target.poll() is None:` samples CPU for ~1s, then
`if time.time() - start_time > 20:` terminates the target and breaks.
Returns the exit time and whether `terminate()` was called. -/
def interactLoopEnd (exitTime : ℚ) : ℚ → List ℚ → ℚ × Bool
  | t, [] => (t, false)
  | t, d :: rest =>
      if t < exitTime then
        if 20 < t + d then (t + d, true)
        else interactLoopEnd exitTime (t + d) rest
      else (t, false)

/-!
## Run Metrics Sink — `RunnerConfig.log_run_data_to_csv`
(`examples/powerjoular_test/RunnerConfig.py`, lines 152-163)

The CSV file is modelled as `Option (List String)`: `none` when
`file_path.exists()` is false, otherwise the list of its lines.
`run_data` is the (ordered) key/value list of the Python dict.
-/

def joinComma (l : List String) : String := String.intercalate "," l

/-- `RunnerConfig.log_run_data_to_csv`: write a header of comma-joined keys
if the file does not exist, then append one comma-joined value row. -/
def log_run_data_to_csv (file : Option (List String))
    (run_data : List (String × String)) : List String :=
  (match file with
   | none => [joinComma (run_data.map Prod.fst)]
   | some lines => lines)
  ++ [joinComma (run_data.map Prod.snd)]

/-!
## CSV reduction — `RunnerConfig.populate_run_data`
(`examples/powerjoular_test/RunnerConfig.py`, lines 165-211)

A powerjoular CSV column is `Option (List ℚ)`: `none` when the column is
absent from `df.columns`, otherwise its (possibly empty) value series.
pandas `Series.mean()` of an empty series is `NaN`, modelled as `none` in
`Option ℚ`; `Series.sum()` of an empty series is `0.0`.  the Python `round`
maps `NaN` to `NaN`.
-/

def pdMean (col : List ℚ) : Option ℚ :=
  if col = [] then none else some (col.sum / col.length)

def pdSum (col : List ℚ) : ℚ := col.sum

def roundOpt3 (x : Option ℚ) : Option ℚ := x.map round3

/-- `round(df[c].mean(), 3) if c in df.columns else 0`
(lines 172-189). -/
def meanMetric (col : Option (List ℚ)) : Option ℚ :=
  match col with
  | some l => roundOpt3 (pdMean l)
  | none => some 0

/-- `round(df[c].sum(), 3) if c in df.columns else 0`
(lines 180-192). -/
def sumMetric (col : Option (List ℚ)) : Option ℚ :=
  match col with
  | some l => some (round3 (pdSum l))
  | none => some 0

/-!
## Workload — `is_prime`
(`examples/powerjoular_test/pressure.py`, lines 6-13)
-/

/-- `pressure.is_prime`: `False` for `0` and `1`, else trial division over
`range(2, p // 2 + 1)`. -/
def is_prime (p : ℕ) : Bool :=
  if p = 0 ∨ p = 1 then false
  else (List.range' 2 (p / 2 + 1 - 2)).all fun i => p % i != 0

/-!
## Helper lemmas
-/

theorem gpuCollect_ok (polls : List (Option (List (ℚ × ℚ))))
    (h : ∀ p ∈ polls, p ≠ none) (acc : List ℚ × List ℚ) :
    gpuCollect polls acc
      = some (acc.1 ++ gpuPowerSamples polls, acc.2 ++ gpuUtilSamples polls) := by
  induction polls generalizing acc with
  | nil => simp [gpuCollect, gpuPowerSamples, gpuUtilSamples]
  | cons p rest ih =>
    match p with
    | none => exact absurd rfl (h none (by simp))
    | some lines =>
      rw [show gpuCollect (some lines :: rest) acc
            = gpuCollect rest (acc.1 ++ lines.map Prod.fst, acc.2 ++ lines.map Prod.snd)
          from rfl,
        ih (fun q hq => h q (by simp [hq]))]
      simp [gpuPowerSamples, gpuUtilSamples]

theorem gpuCollect_err (polls : List (Option (List (ℚ × ℚ))))
    (h : none ∈ polls) (acc : List ℚ × List ℚ) :
    gpuCollect polls acc = none := by
  induction polls generalizing acc with
  | nil => simp at h
  | cons p rest ih =>
    match p with
    | none => rfl
    | some lines =>
      have : none ∈ rest := by simpa using h
      exact ih this _

theorem checkTimes_ge (t : ℚ) (durs : List ℚ) (hpos : ∀ d ∈ durs, 0 < d) :
    ∀ s ∈ checkTimes t durs, t ≤ s := by
  induction durs generalizing t with
  | nil =>
    intro s hs
    simp [checkTimes] at hs
    exact le_of_eq hs.symm
  | cons d rest ih =>
    intro s hs
    simp only [checkTimes, List.mem_cons] at hs
    rcases hs with rfl | hs
    · exact le_refl s
    · have hd : 0 < d := hpos d (by simp)
      have := ih (t + d) (fun e he => hpos e (by simp [he])) s hs
      linarith

theorem monitorLoopEnd_spec (exitTime t : ℚ) (durs : List ℚ)
    (hpos : ∀ d ∈ durs, 0 < d)
    (hstop : ∃ s ∈ checkTimes t durs, ¬(s < exitTime ∧ s < 10)) :
    ¬(monitorLoopEnd exitTime t durs < exitTime ∧ monitorLoopEnd exitTime t durs < 10)
    ∧ ∀ s ∈ checkTimes t durs,
        s < monitorLoopEnd exitTime t durs → (s < exitTime ∧ s < 10) := by
  induction durs generalizing t with
  | nil =>
    obtain ⟨s, hs, hcond⟩ := hstop
    simp [checkTimes] at hs
    subst hs
    refine ⟨by simpa [monitorLoopEnd] using hcond, ?_⟩
    intro s hs hlt
    simp [checkTimes] at hs
    subst hs
    simp [monitorLoopEnd] at hlt
  | cons d rest ih =>
    by_cases hc : t < exitTime ∧ t < 10
    · obtain ⟨s, hs, hcond⟩ := hstop
      simp only [checkTimes, List.mem_cons] at hs
      have hstail : ∃ s ∈ checkTimes (t + d) rest, ¬(s < exitTime ∧ s < 10) := by
        rcases hs with rfl | hs
        · exact absurd hc hcond
        · exact ⟨s, hs, hcond⟩
      have hrec := ih (t + d) (fun e he => hpos e (by simp [he])) hstail
      refine ⟨by simpa [monitorLoopEnd, hc] using hrec.1, ?_⟩
      intro s hs2 hlt
      simp only [checkTimes, List.mem_cons] at hs2
      rcases hs2 with rfl | hs2
      · exact hc
      · exact hrec.2 s hs2 (by simpa [monitorLoopEnd, hc] using hlt)
    · refine ⟨by simp [monitorLoopEnd, hc], ?_⟩
      intro s hs hlt
      have hts := checkTimes_ge t (d :: rest) hpos s hs
      simp [monitorLoopEnd, hc] at hlt
      exact absurd hlt (not_lt.mpr hts)

theorem interactLoopEnd_spec (exitTime t : ℚ) (durs : List ℚ)
    (hpos : ∀ d ∈ durs, 0 < d)
    (hstop : ∃ s ∈ checkTimes t durs, ¬(s < exitTime) ∨ 20 < s) :
    ((interactLoopEnd exitTime t durs).2 = true → 20 < (interactLoopEnd exitTime t durs).1)
    ∧ (¬((interactLoopEnd exitTime t durs).1 < exitTime)
        ∨ 20 < (interactLoopEnd exitTime t durs).1)
    ∧ ∀ s ∈ checkTimes t durs,
        s < (interactLoopEnd exitTime t durs).1 → (s < exitTime ∧ (s = t ∨ s ≤ 20)) := by
  induction durs generalizing t with
  | nil =>
    obtain ⟨s, hs, hcond⟩ := hstop
    simp [checkTimes] at hs
    subst hs
    refine ⟨by simp [interactLoopEnd], by simpa [interactLoopEnd] using hcond, ?_⟩
    intro s hs hlt
    simp [checkTimes] at hs
    subst hs
    simp [interactLoopEnd] at hlt
  | cons d rest ih =>
    have hd : 0 < d := hpos d (by simp)
    by_cases hc : t < exitTime
    · by_cases hb : 20 < t + d
      · have he : interactLoopEnd exitTime t (d :: rest) = (t + d, true) := by
          simp [interactLoopEnd, hc, hb]
        refine ⟨by simp [he, hb], by simp [he]; right; exact hb, ?_⟩
        intro s hs hlt
        rw [he] at hlt
        simp only [checkTimes, List.mem_cons] at hs
        rcases hs with rfl | hs
        · exact ⟨hc, Or.inl rfl⟩
        · have := checkTimes_ge (t + d) rest (fun e he2 => hpos e (by simp [he2])) s hs
          exact absurd hlt (not_lt.mpr this)
      · have he : interactLoopEnd exitTime t (d :: rest)
            = interactLoopEnd exitTime (t + d) rest := by
          simp [interactLoopEnd, hc, hb]
        obtain ⟨s, hs, hcond⟩ := hstop
        simp only [checkTimes, List.mem_cons] at hs
        have hstail : ∃ s ∈ checkTimes (t + d) rest, ¬(s < exitTime) ∨ 20 < s := by
          rcases hs with rfl | hs
          · rcases hcond with hdead | hlate
            · exact absurd hc hdead
            · exact absurd hlate (by push_neg at hb ⊢; linarith)
          · exact ⟨s, hs, hcond⟩
        have hrec := ih (t + d) (fun e he2 => hpos e (by simp [he2])) hstail
        refine ⟨by rw [he]; exact hrec.1, by rw [he]; exact hrec.2.1, ?_⟩
        intro s hs2 hlt
        rw [he] at hlt
        simp only [checkTimes, List.mem_cons] at hs2
        rcases hs2 with rfl | hs2
        · exact ⟨hc, Or.inl rfl⟩
        · have h3 := hrec.2.2 s hs2 hlt
          refine ⟨h3.1, ?_⟩
          rcases h3.2 with rfl | hle
          · right; push_neg at hb; exact hb
          · right; exact hle
    · have he : interactLoopEnd exitTime t (d :: rest) = (t, false) := by
        simp [interactLoopEnd, hc]
      refine ⟨by simp [he], by simp [he]; left; exact not_lt.mp hc, ?_⟩
      intro s hs hlt
      rw [he] at hlt
      have hts := checkTimes_ge t (d :: rest) hpos s hs
      exact absurd hlt (not_lt.mpr hts)

theorem min_length_one (n : ℕ) : min (n + 1) 1 = 1 := by omega

/-!
## Claims
-/

/-- C1: when all four RAPL counter reads succeed and each domain counter
pair is monotone (`start ≤ end`), the reported energy-in-joules metric of
each hardware domain equals `(end - start) / 1e6` rounded to 3 decimal
places. -/
theorem c1_energy_delta_rounding (inp : MonitorInputs) (s e m0 m1 : ℤ)
    (hc0 : inp.cpu0 = some s) (hm0 : inp.mem0 = some m0)
    (hc1 : inp.cpu1 = some e) (hm1 : inp.mem1 = some m1)
    (_hcm : s ≤ e) (_hmm : m0 ≤ m1) :
    cpu_energy_usage inp = round3 (((e : ℚ) - (s : ℚ)) / 1000000)
    ∧ mem_energy_usage inp = round3 (((m1 : ℚ) - (m0 : ℚ)) / 1000000) := by
  unfold cpu_energy_usage mem_energy_usage monitor_cpu_memory initialEnergies finalEnergies
  rw [hc0, hm0, hc1, hm1]
  exact ⟨rfl, rfl⟩

/-- C1 witness: counters `start = 1,000,000 µJ`, `end = 3,500,000 µJ` give
exactly `2.5` joules. -/
theorem c1_energy_delta_rounding_witness :
    cpu_energy_usage ⟨some 1000000, some 0, some 3500000, some 0, [], [], [], []⟩ = 5/2 := by
  have h := (c1_energy_delta_rounding
      ⟨some 1000000, some 0, some 3500000, some 0, [], [], [], []⟩
      1000000 3500000 0 0 rfl rfl rfl rfl (by norm_num) (by norm_num)).1
  rw [h, round3_eq _ 2500 (by norm_num)]
  norm_num

/-- C3 counterexample: with all four reads succeeding and a negative CPU
counter delta (initial 2,000,000 µJ, final 1,000,000 µJ), the aggregator
reports the negative value `-1.0` — not a zero / degraded value. -/
theorem c3_counterexample :
    cpu_energy_usage ⟨some 2000000, some 0, some 1000000, some 0, [], [], [], []⟩ = -1
    ∧ cpu_energy_usage ⟨some 2000000, some 0, some 1000000, some 0, [], [], [], []⟩ < 0 := by
  have h : cpu_energy_usage ⟨some 2000000, some 0, some 1000000, some 0, [], [], [], []⟩
      = round3 (((1000000 : ℚ) - 2000000) / 1000000) := rfl
  rw [h, round3_eq _ (-1000) (by norm_num)]
  norm_num

/-- C3 (amended): a negative counter delta is not special-cased.  When both
the initial and the final read succeed, a window with `final < initial`
yields `round((final - initial) / 1e6, 3)` — a nonpositive value that is
reported as-is (no error is raised and the domain is not marked
unavailable); a zero report arises only when a read fails. -/
theorem c3_negative_delta_reported (inp : MonitorInputs) (s e m0 m1 : ℤ)
    (hc0 : inp.cpu0 = some s) (hm0 : inp.mem0 = some m0)
    (hc1 : inp.cpu1 = some e) (hm1 : inp.mem1 = some m1)
    (hneg : e < s) :
    cpu_energy_usage inp = round3 (((e : ℚ) - (s : ℚ)) / 1000000)
    ∧ cpu_energy_usage inp ≤ 0 := by
  have h : cpu_energy_usage inp = round3 (((e : ℚ) - (s : ℚ)) / 1000000) := by
    unfold cpu_energy_usage monitor_cpu_memory initialEnergies finalEnergies
    rw [hc0, hm0, hc1, hm1]
  refine ⟨h, ?_⟩
  rw [h]
  apply round3_nonpos
  apply div_nonpos_of_nonpos_of_nonneg _ (by norm_num)
  have : (e : ℚ) < (s : ℚ) := by exact_mod_cast hneg
  linarith

/-- C3 amended-claim witness: initial 3,000,000 µJ, final 500,000 µJ gives
the reported value `-2.5`, which is nonpositive. -/
theorem c3_negative_delta_reported_witness :
    cpu_energy_usage ⟨some 3000000, some 0, some 500000, some 0, [], [], [], []⟩ = -5/2
    ∧ cpu_energy_usage ⟨some 3000000, some 0, some 500000, some 0, [], [], [], []⟩ ≤ 0 := by
  have h := c3_negative_delta_reported
      ⟨some 3000000, some 0, some 500000, some 0, [], [], [], []⟩
      3000000 500000 0 0 rfl rfl rfl rfl (by norm_num)
  refine ⟨?_, h.2⟩
  rw [h.1, round3_eq _ (-2500) (by norm_num)]
  norm_num

/-- C9: the two energy domains are read inside a single exception scope, so
a missing memory-domain file corrupts the CPU energy metric: (i) with the
memory file absent at both reads, CPU energy is reported as 0 even though
both CPU reads succeeded; (ii) a failed final read forces the final
energies back to the initial ones, reporting CPU energy 0; (iii) a failed
initial read forces the initial energies to 0.0, reporting CPU energy as
the absolute final counter value. -/
theorem c9_coupled_domain_failures (a b c d : ℤ) (us ms ps qs : List ℚ) :
    cpu_energy_usage ⟨some a, none, some c, none, us, ms, ps, qs⟩ = 0
    ∧ cpu_energy_usage ⟨some a, some b, some c, none, us, ms, ps, qs⟩ = 0
    ∧ cpu_energy_usage ⟨some a, none, some c, some d, us, ms, ps, qs⟩
        = round3 ((c : ℚ) / 1000000) := by
  refine ⟨?_, ?_, ?_⟩
  · show round3 (((0 : ℚ) - 0) / 1000000) = 0
    rw [show ((0 : ℚ) - 0) / 1000000 = 0 by norm_num, round3_zero]
  · show round3 (((a : ℚ) - a) / 1000000) = 0
    rw [show ((a : ℚ) - a) / 1000000 = 0 by rw [sub_self, zero_div], round3_zero]
  · show round3 (((c : ℚ) - 0) / 1000000) = round3 ((c : ℚ) / 1000000)
    rw [sub_zero]

/-- C2 counterexample: with both interface files absent and a fresh flag,
`get_cpu_power` prints one warning, but the immediately following
`get_memory_power` call prints none — the memory domain does not get its
own one-time warning, because the `rapl_error_printed` flag is shared. -/
theorem c2_counterexample :
    (get_cpu_power none false).warnings = 1
    ∧ (get_memory_power none (get_cpu_power none false).flag).warnings = 0 := by
  exact ⟨rfl, rfl⟩

/-- C2 (amended): when the hardware energy interface files are absent, the
readers return `0.0`, and the unavailability warning is emitted exactly
once per *process lifetime*, shared across both domains: over any sequence
of failing reader calls starting from a fresh flag, exactly
`min (number of calls) 1` warning lines are printed. -/
theorem c2_shared_once_warning (calls : List RaplDomain) (flag : Bool) :
    runUnavailableCalls calls false = min calls.length 1
    ∧ (get_cpu_power none flag).value = 0
    ∧ (get_memory_power none flag).value = 0 := by
  refine ⟨?_, rfl, rfl⟩
  cases calls with
  | nil => rfl
  | cons d rest =>
    cases d <;>
      simp [runUnavailableCalls, get_cpu_power, get_memory_power,
        runUnavailableCalls_flag_set, min_length_one]

/-- C4: when every `nvidia-smi` invocation of the run succeeds, the GPU
energy metric is `sum(gpu_power_usage) / 1000` rounded to 3 decimals,
derived from the collected power sample series. -/
theorem c4_gpu_energy_from_samples (polls : List (Option (List (ℚ × ℚ))))
    (h : ∀ p ∈ polls, p ≠ none) :
    (monitor_gpu polls).2.2 = round3 ((gpuPowerSamples polls).sum / 1000) := by
  unfold monitor_gpu
  rw [gpuCollect_ok polls h ([], [])]
  rfl

/-- C4 witness: GPU power samples `[100.0, 150.0]` yield GPU energy `0.25`. -/
theorem c4_gpu_energy_from_samples_witness :
    (monitor_gpu [some [(100, 50)], some [(150, 60)]]).2.2 = 1/4 := by
  have h := c4_gpu_energy_from_samples [some [(100, 50)], some [(150, 60)]] (by simp)
  rw [h, show (gpuPowerSamples [some [(100, 50)], some [(150, 60)]]).sum = (250 : ℚ) by
    norm_num [gpuPowerSamples]]
  rw [round3_eq _ 250 (by norm_num)]
  norm_num

/-- C7: if any `nvidia-smi` invocation fails — the binary is absent
(`FileNotFoundError`) or the tool exits non-zero (`CalledProcessError`) —
`monitor_gpu` returns `(0.0, 0.0, 0.0)`: all GPU metrics of the run are
zero and no exception escapes (the embedding is a total function). -/
theorem c7_gpu_tool_failure_zeroes (polls : List (Option (List (ℚ × ℚ))))
    (h : none ∈ polls) :
    monitor_gpu polls = (0, 0, 0) := by
  unfold monitor_gpu
  rw [gpuCollect_err polls h]

/-- C7 witness: a run whose first invocation already fails reports zeros. -/
theorem c7_gpu_tool_failure_zeroes_witness :
    monitor_gpu [none] = (0, 0, 0) :=
  c7_gpu_tool_failure_zeroes [none] (by simp)

/-- C5: both sampling loops exit at the first check at which the workload
has exited or the elapsed-time budget is passed, whichever comes first.
For the 10-second CPU/mem/power loop the exit time satisfies the stop
condition while every earlier check time satisfied the run condition; for
the 20-second interactive variant, `terminate()` is called only when the
budget is exceeded, the exit time is a stop point, and every earlier check
was within budget with the workload alive. -/
theorem c5_loop_exit_whichever_first (exitTime t exitTime2 t2 : ℚ)
    (durs durs2 : List ℚ)
    (hpos : ∀ d ∈ durs, 0 < d)
    (hstop : ∃ s ∈ checkTimes t durs, ¬(s < exitTime ∧ s < 10))
    (hpos2 : ∀ d ∈ durs2, 0 < d)
    (hstop2 : ∃ s ∈ checkTimes t2 durs2, ¬(s < exitTime2) ∨ 20 < s) :
    (¬(monitorLoopEnd exitTime t durs < exitTime ∧ monitorLoopEnd exitTime t durs < 10)
      ∧ ∀ s ∈ checkTimes t durs,
          s < monitorLoopEnd exitTime t durs → (s < exitTime ∧ s < 10))
    ∧ (((interactLoopEnd exitTime2 t2 durs2).2 = true
          → 20 < (interactLoopEnd exitTime2 t2 durs2).1)
      ∧ (¬((interactLoopEnd exitTime2 t2 durs2).1 < exitTime2)
          ∨ 20 < (interactLoopEnd exitTime2 t2 durs2).1)
      ∧ ∀ s ∈ checkTimes t2 durs2,
          s < (interactLoopEnd exitTime2 t2 durs2).1
            → (s < exitTime2 ∧ (s = t2 ∨ s ≤ 20))) :=
  ⟨monitorLoopEnd_spec exitTime t durs hpos hstop,
   interactLoopEnd_spec exitTime2 t2 durs2 hpos2 hstop2⟩

/-- C5 witness: a workload exiting at `t = 3 s` under the 10-second budget,
with ~3-second loop bodies, ends the loop at `t = 3 s` (not at the full
budget); the interactive loop with 1-second bodies likewise ends at
`t = 3 s` without terminating the target. -/
theorem c5_loop_exit_whichever_first_witness :
    monitorLoopEnd 3 0 [3, 3, 3, 3] = 3
    ∧ interactLoopEnd 3 0 [1, 1, 1, 1] = (3, false)
    ∧ ¬(monitorLoopEnd 3 0 [3, 3, 3, 3] < 3 ∧ monitorLoopEnd 3 0 [3, 3, 3, 3] < 10) := by
  have h := c5_loop_exit_whichever_first 3 0 3 0 [3, 3, 3, 3] [1, 1, 1, 1]
    (by norm_num)
    ⟨3, by norm_num [checkTimes], by norm_num⟩
    (by norm_num)
    ⟨3, by norm_num [checkTimes], by norm_num⟩
  exact ⟨by norm_num [monitorLoopEnd], by norm_num [interactLoopEnd], h.1.1⟩

/-- C6 counterexample: in `populate_run_data`, a mean-reduced metric whose
CSV column is present but holds no samples reduces to pandas `NaN`
(modelled `none`), not to `0`. -/
theorem c6_counterexample :
    meanMetric (some []) = none ∧ meanMetric (some []) ≠ some 0 := by
  exact ⟨rfl, by simp [meanMetric, pdMean, roundOpt3]⟩

/-- C6 (amended): empty sample series reduce to `0` without an error in the
llama aggregator (all four average metrics of `monitor_cpu_memory`, and all
three GPU metrics of `monitor_gpu`), and in `populate_run_data` a metric
whose CSV column is absent reduces to `0` and a sum-reduced metric of an
empty column reduces to `0.0`; but a mean-reduced metric of a
present-but-empty column reduces to pandas `NaN` rather than `0` (still no
error is raised). -/
theorem c6_empty_series_reduction (r0 r1 r2 r3 : Option ℤ) :
    (monitor_cpu_memory ⟨r0, r1, r2, r3, [], [], [], []⟩).1 = 0
    ∧ (monitor_cpu_memory ⟨r0, r1, r2, r3, [], [], [], []⟩).2.1 = 0
    ∧ (monitor_cpu_memory ⟨r0, r1, r2, r3, [], [], [], []⟩).2.2.1 = 0
    ∧ (monitor_cpu_memory ⟨r0, r1, r2, r3, [], [], [], []⟩).2.2.2.1 = 0
    ∧ monitor_gpu [] = (0, 0, 0)
    ∧ meanMetric none = some 0
    ∧ sumMetric none = some 0
    ∧ sumMetric (some []) = some 0
    ∧ meanMetric (some []) = none := by
  refine ⟨rfl, rfl, rfl, rfl, ?_, rfl, rfl, ?_, rfl⟩
  · show (roundedAvgOrZero [], roundedAvgOrZero [], round3 ((List.sum []) / 1000))
        = ((0 : ℚ), (0 : ℚ), (0 : ℚ))
    rw [show roundedAvgOrZero [] = round3 0 from rfl, round3_zero,
      show (List.sum [] : ℚ) / 1000 = 0 by norm_num, round3_zero]
  · show some (round3 (pdSum [])) = some 0
    rw [show pdSum [] = (0 : ℚ) from rfl, round3_zero]

/-- C8: `log_run_data_to_csv` on an absent path writes the header row of
comma-joined keys followed by one comma-joined value row; on an existing
file it appends exactly one value row, leaving all existing lines (the
header included) unchanged; in particular a second call after a first one
yields header, first row, second row. -/
theorem c8_csv_append (run_data run_data2 : List (String × String))
    (lines : List String) :
    log_run_data_to_csv none run_data
      = [joinComma (run_data.map Prod.fst), joinComma (run_data.map Prod.snd)]
    ∧ log_run_data_to_csv (some lines) run_data2
      = lines ++ [joinComma (run_data2.map Prod.snd)]
    ∧ log_run_data_to_csv (some (log_run_data_to_csv none run_data)) run_data2
      = [joinComma (run_data.map Prod.fst), joinComma (run_data.map Prod.snd),
          joinComma (run_data2.map Prod.snd)] := by
  exact ⟨rfl, rfl, rfl⟩

/-- C10: `pressure.is_prime` decides primality: it returns `True` exactly
on the prime numbers, since trial division over `range(2, p // 2 + 1)`
finds a divisor for every composite `p ≥ 2` (its least prime factor is at
most `p // 2`) and none for a prime. -/
theorem c10_is_prime_iff (p : ℕ) : is_prime p = true ↔ Nat.Prime p := by
  unfold is_prime
  by_cases h01 : p = 0 ∨ p = 1
  · rw [if_pos h01]
    simp only [Bool.false_eq_true, false_iff]
    rcases h01 with rfl | rfl
    · exact Nat.not_prime_zero
    · exact Nat.not_prime_one
  · have hp2 : 2 ≤ p := by omega
    rw [if_neg h01, List.all_eq_true]
    constructor
    · intro hall
      by_contra hnp
      have hqp := Nat.minFac_prime (show p ≠ 1 by omega)
      have hdvd := Nat.minFac_dvd p
      have hle : p.minFac ≤ p / 2 :=
        le_trans (Nat.minFac_le_div (by omega) hnp)
          (Nat.div_le_div_left hqp.two_le (by norm_num))
      have h2le := hqp.two_le
      have hmem : p.minFac ∈ List.range' 2 (p / 2 + 1 - 2) := by
        rw [List.mem_range'_1]
        omega
      have := hall _ hmem
      rw [bne_iff_ne, ne_eq] at this
      exact this (Nat.mod_eq_zero_of_dvd hdvd)
    · intro hp d hd
      rw [List.mem_range'_1] at hd
      rw [bne_iff_ne, ne_eq]
      intro hmod
      have hdvd : d ∣ p := Nat.dvd_of_mod_eq_zero hmod
      rcases (Nat.Prime.eq_one_or_self_of_dvd hp d hdvd) with h1 | h2
      · omega
      · have : p / 2 < p := Nat.div_lt_self (by omega) (by norm_num)
        omega

end Tao
